/-
  Verification of the GAIA fintech dashboard against its specification.

  The definitions below are a shallow embedding of the TypeScript sources:
  * score labelling    — ESGRadarChart.getOverallRating, ESGScoreCard.getScoreLabel
  * result processing  — AnalysisDashboard.processResults
  * websocket handling — AnalysisDashboard.handleWebSocketMessage
  * status polling     — AnalysisDashboard.pollAnalysisStatus
  * API surface        — services/api.ts AnalysisAPI

  JavaScript numbers are modelled as rationals (ℚ); the short-circuiting
  `a || b` idiom is modelled by explicit truthiness helpers (a number is
  falsy exactly when it is 0, a string exactly when it is empty, and an
  absent value is falsy; arrays and objects are truthy whenever present).
-/
import Mathlib

namespace Gaia

/-! ### JavaScript truthiness helpers -/

/-- Models the JS expression with a numeric left operand: if the
left value is present and nonzero it wins, otherwise the right operand. -/
def orNum (a : Option ℚ) (b : ℚ) : ℚ :=
  match a with
  | some x => if x = 0 then b else x
  | none => b

/-- Same short-circuit idiom for strings: an empty string is falsy. -/
def orStr (a : Option String) (b : String) : String :=
  match a with
  | some s => if s = "" then b else s
  | none => b

/-- Same idiom with an array left operand: arrays are truthy whenever
present, even when empty. -/
def orList {α : Type} (a : Option (List α)) (b : List α) : List α :=
  a.getD b

/-- Models the JS comparison on a possibly-absent number:
it is false when the value is absent. -/
def gtNum (a : Option ℚ) (c : ℚ) : Bool :=
  match a with
  | some x => decide (x > c)
  | none => false

/-- JS Math.round: round half away from zero upwards, i.e. floor of x + 1/2. -/
def mathRound (x : ℚ) : Int :=
  ⌊x + 1/2⌋

/-! ### Score labelling (ESGScoreCard.tsx / ESGRadarChart.tsx) -/

/-- From src/frontend/src/components/DebateVisualization.tsx (ESGScoreCard
section), getScoreLabel. -/
def getScoreLabel (score : ℚ) : String :=
  if score ≥ 80 then "Excellent"
  else if score ≥ 60 then "Good"
  else if score ≥ 40 then "Fair"
  else "Poor"

/-- The rating object returned by ESGRadarChart.getOverallRating. -/
structure Rating where
  label : String
  color : String
deriving DecidableEq, Repr

/-- From src/unnamed/part_003 (ESGRadarChart), getOverallRating: averages
the three sub-scores and picks a band. -/
def getOverallRating (envScore socScore govScore : ℚ) : Rating :=
  let avg := (envScore + socScore + govScore) / 3
  if avg ≥ 80 then ⟨"Excellent", "text-emerald-400"⟩
  else if avg ≥ 60 then ⟨"Good", "text-gaia-400"⟩
  else if avg ≥ 40 then ⟨"Fair", "text-amber-400"⟩
  else ⟨"Poor", "text-red-400"⟩

/-- From src/unnamed/part_003 line 85: the number displayed next to the
rating, the rounded average of the three sub-scores. -/
def esgOverallDisplayed (envScore socScore govScore : ℚ) : Int :=
  mathRound ((envScore + socScore + govScore) / 3)

/-- The average that getOverallRating bands on. -/
def esgOverallAvg (envScore socScore govScore : ℚ) : ℚ :=
  (envScore + socScore + govScore) / 3

/-- Modelled from the spec (§4.5): the claimed fixed three-pillar weighting,
environmental 0.33, social 0.33, governance 0.34.  Used only to compare the
spec's formula against the source's. -/
def specWeightedOverall (envScore socScore govScore : ℚ) : ℚ :=
  (33/100) * envScore + (33/100) * socScore + (34/100) * govScore

/-! ### API surface (src/frontend/src/services/api.ts) -/

/-- The static operations exposed by the AnalysisAPI class in
src/frontend/src/services/api.ts, in declaration order. -/
def analysisAPIOperations : List String :=
  [ "startAnalysis"
  , "getAnalysisStatus"
  , "getAnalysisResults"
  , "connectWebSocket"
  , "getBlockchainStatus"
  , "getAuditTrail"
  , "verifyBlockchain" ]

/-- Modelled from the spec (§4.6): the seven progress-event names of the
spec's taxonomy.  Used only to compare against the message types the
source actually dispatches on. -/
def specProgressEventTypes : List String :=
  [ "run_started"
  , "worker_completed"
  , "worker_timeout"
  , "debate_round_started"
  , "debate_round_completed"
  , "run_completed"
  , "run_failed" ]

/-! ### Further JS helpers used by the dashboard embedding -/

/-- Short-circuit idiom with a numeric left operand and a raw right operand
that may itself be absent (as in sdg.goal or sdg.sdg_number). -/
def orNatRaw (a b : Option Nat) : Option Nat :=
  match a with
  | some n => if n = 0 then b else some n
  | none => b

/-- Short-circuit idiom with a numeric left operand and a numeric default. -/
def orNat (a : Option Nat) (b : Nat) : Nat :=
  match a with
  | some n => if n = 0 then b else n
  | none => b

/-- Whether p occurs as a leading segment of a character list. -/
def leadsWith : List Char → List Char → Bool
  | [], _ => true
  | _ :: _, [] => false
  | a :: as, b :: bs => a == b && leadsWith as bs

/-- Whether the pattern p occurs anywhere inside the character list. -/
def containsSub (p : List Char) : List Char → Bool
  | [] => leadsWith p []
  | c :: rest => leadsWith p (c :: rest) || containsSub p rest

/-- JS String.includes. -/
def strContains (s pat : String) : Bool :=
  containsSub pat.data s.data

/-- JS String.toLowerCase (ASCII, as Char.toLower). -/
def strLower (s : String) : String :=
  ⟨s.data.map Char.toLower⟩

/-! ### Data model of the backend results payload (fields read by the
dashboard in src/unnamed/part_001) -/

/-- The data.esg_scores sub-object. -/
structure EsgScoresPayload where
  environmental : Option ℚ
  social : Option ℚ
  governance : Option ℚ
  overall : Option ℚ
deriving DecidableEq, Repr

/-- One element of data.top_sdgs (or one synthesised from the
data.sdg_impact score map). -/
structure SdgEntry where
  goal : Option Nat
  sdg_number : Option Nat
  score : Option ℚ
  impact_score : Option ℚ
  impact_type : Option String
  evidence : Option (List String)
  initiatives : Option (List String)
deriving DecidableEq, Repr

/-- The data.debate_summary.resolution sub-object. -/
structure Resolution where
  final_confidence : Option ℚ
deriving DecidableEq, Repr

/-- One greenwashing signal/alert object as read by processResults. -/
structure SignalEntry where
  severity : Option String
  risk_level : Option String
  category : Option String
  type : Option String
  description : Option String
  signal : Option String
  evidence : Option (List String)
  indicators : Option (List String)
  confidence : Option ℚ
  confidence_score : Option ℚ
deriving DecidableEq, Repr

/-- The data.debate_summary sub-object. -/
structure DebateSummary where
  resolution : Option Resolution
  greenwashing_signals : Option (List SignalEntry)
  arguments : Option (List String)
deriving DecidableEq, Repr

/-- The data.orchestrator_summary sub-object. -/
structure OrchestratorSummary where
  debate_sessions : Option (List String)
  greenwashing_signals : Option (List SignalEntry)
deriving DecidableEq, Repr

/-- The backend results payload, restricted to the fields processResults
reads.  Timestamps are modelled as numeric epoch values (JS Date input). -/
structure Payload where
  environmental_score : Option ℚ
  social_score : Option ℚ
  governance_score : Option ℚ
  overall_score : Option ℚ
  esg_scores : Option EsgScoresPayload
  sdg_impact : Option (List (Nat × ℚ))
  top_sdgs : Option (List SdgEntry)
  debate_summary : Option DebateSummary
  greenwashing_alerts : Option (List SignalEntry)
  company_name : Option String
  ticker : Option String
  completed_at : Option ℚ
  created_at : Option ℚ
  confidence : Option ℚ
  blockchain : Option String
  orchestrator_summary : Option OrchestratorSummary
  debate_sessions : Option (List String)
  greenwashing_signals : Option (List SignalEntry)
deriving DecidableEq, Repr

/-- A payload with every field absent. -/
def emptyPayload : Payload :=
  { environmental_score := none, social_score := none, governance_score := none
  , overall_score := none, esg_scores := none, sdg_impact := none
  , top_sdgs := none, debate_summary := none, greenwashing_alerts := none
  , company_name := none, ticker := none, completed_at := none
  , created_at := none, confidence := none, blockchain := none
  , orchestrator_summary := none, debate_sessions := none
  , greenwashing_signals := none }

/-! ### Frontend display types (src/frontend/src/types/index.ts) -/

structure ESGScores where
  environmental : ℚ
  social : ℚ
  governance : ℚ
  overall : ℚ
deriving DecidableEq, Repr

structure SDGImpactEntry where
  goal : Option Nat
  title : String
  score : Int
  impact : String
  evidence : List String
deriving DecidableEq, Repr

structure GreenwashingAlertEntry where
  severity : String
  category : String
  description : String
  evidence : List String
  confidence : ℚ
deriving DecidableEq, Repr

structure AgentStatus where
  id : String
  name : String
  role : String
  status : String
  progress : Nat
  currentTask : Option String
  findings : Option (List String)
  avatar : String
deriving DecidableEq, Repr

structure Company where
  name : String
  ticker : Option String
deriving DecidableEq, Repr

structure AnalysisResult where
  company : Company
  esgScores : ESGScores
  sdgImpacts : List SDGImpactEntry
  greenwashingAlerts : List GreenwashingAlertEntry
  agents : List AgentStatus
  debate : List String
  analysisDate : ℚ
  confidence : ℚ
deriving DecidableEq, Repr

/-! ### processResults (src/unnamed/part_001, lines 210-288) -/

/-- getSDGTitle: lookup table with the template-string fallback. -/
def getSDGTitle (goal : Option Nat) : String :=
  match goal with
  | some 1 => "No Poverty"
  | some 2 => "Zero Hunger"
  | some 3 => "Good Health"
  | some 4 => "Quality Education"
  | some 5 => "Gender Equality"
  | some 6 => "Clean Water"
  | some 7 => "Clean Energy"
  | some 8 => "Decent Work"
  | some 9 => "Innovation"
  | some 10 => "Reduced Inequality"
  | some 11 => "Sustainable Cities"
  | some 12 => "Responsible Consumption"
  | some 13 => "Climate Action"
  | some 14 => "Life Below Water"
  | some 15 => "Life on Land"
  | some 16 => "Peace & Justice"
  | some 17 => "Partnerships"
  | some n => "SDG " ++ toString n
  | none => "SDG undefined"

/-- mapSeverity: substring tests on the lower-cased severity string. -/
def mapSeverity (severity : String) : String :=
  let lower := strLower severity
  if strContains lower "critical" || strContains lower "severe" then "critical"
  else if strContains lower "high" then "high"
  else if strContains lower "low" || strContains lower "minor" then "low"
  else "medium"

/-- The arrow function applied to Object.entries(data.sdg_impact):
([goal, score]) becomes an entry with impact_type computed from the score. -/
def sdgEntryOfPair (p : Nat × ℚ) : SdgEntry :=
  { goal := some p.1
  , sdg_number := none
  , score := some p.2
  , impact_score := none
  , impact_type := some (if p.2 > 50 then "positive" else "neutral")
  , evidence := none
  , initiatives := none }

/-- The body of the sdgData.forEach push in processResults. -/
def toSdgImpactEntry (sdg : SdgEntry) : SDGImpactEntry :=
  { goal := orNatRaw sdg.goal sdg.sdg_number
  , title := getSDGTitle (orNatRaw sdg.goal sdg.sdg_number)
  , score := mathRound (orNum sdg.score (orNum sdg.impact_score 0))
  , impact := orStr sdg.impact_type (if gtNum sdg.score 50 then "positive" else "neutral")
  , evidence := orList sdg.evidence (orList sdg.initiatives []) }

/-- The body of the signals.forEach push in processResults. -/
def toGreenwashingAlertEntry (signal : SignalEntry) : GreenwashingAlertEntry :=
  { severity := mapSeverity (orStr signal.severity (orStr signal.risk_level "medium"))
  , category := orStr signal.category (orStr signal.type "General")
  , description := orStr signal.description (orStr signal.signal "")
  , evidence := orList signal.evidence (orList signal.indicators [])
  , confidence := orNum signal.confidence (orNum signal.confidence_score (0.5 : ℚ)) }

/-- processResults: maps a backend results payload to the displayed
AnalysisResult.  The implicit inputs of the TS closure are made explicit:
now is the Date.now() fallback and agents is the component's agents state. -/
def processResults (data : Payload) (now : ℚ) (agents : List AgentStatus) :
    AnalysisResult :=
  { company :=
      { name := orStr data.company_name (orStr data.ticker "Unknown")
      , ticker := data.ticker }
  , esgScores :=
      { environmental := orNum data.environmental_score
          (orNum (data.esg_scores.bind (fun e => e.environmental)) 0)
      , social := orNum data.social_score
          (orNum (data.esg_scores.bind (fun e => e.social)) 0)
      , governance := orNum data.governance_score
          (orNum (data.esg_scores.bind (fun e => e.governance)) 0)
      , overall := orNum data.overall_score
          (orNum (data.esg_scores.bind (fun e => e.overall)) 0) }
  , sdgImpacts :=
      if data.sdg_impact.isSome || data.top_sdgs.isSome then
        (orList data.top_sdgs
          ((orList data.sdg_impact []).map sdgEntryOfPair)).map toSdgImpactEntry
      else []
  , greenwashingAlerts :=
      if (data.debate_summary.bind (fun ds => ds.greenwashing_signals)).isSome
          || data.greenwashing_alerts.isSome then
        (orList (data.debate_summary.bind (fun ds => ds.greenwashing_signals))
          (orList data.greenwashing_alerts [])).map toGreenwashingAlertEntry
      else []
  , agents := agents
  , debate := orList (data.debate_summary.bind (fun ds => ds.arguments)) []
  , analysisDate := orNum data.completed_at (orNum data.created_at now)
  , confidence :=
      orNum (data.debate_summary.bind
              (fun ds => ds.resolution.bind (fun r => r.final_confidence)))
        (orNum data.confidence (0.85 : ℚ)) }

/-! ### Dashboard component state (the useState hooks of AnalysisDashboard) -/

structure DashState where
  isAnalyzing : Bool
  analysisResult : Option AnalysisResult
  agents : List AgentStatus
  error : Option String
  analysisId : Option String
  blockchainStatus : Option String
  debateSessions : List String
  greenwashingSignals : List SignalEntry
  isDebating : Bool
  currentDebateRound : Nat
deriving DecidableEq, Repr

/-- The component state right after handleAnalyze resets it (result, error
and blockchain cleared, analysing, no id yet). -/
def initialDashState : DashState :=
  { isAnalyzing := true
  , analysisResult := none
  , agents := []
  , error := none
  , analysisId := none
  , blockchainStatus := none
  , debateSessions := []
  , greenwashingSignals := []
  , isDebating := false
  , currentDebateRound := 0 }

/-- The state updates processResults performs besides building the result:
setAnalysisResult, setBlockchainStatus, setDebateSessions and
setGreenwashingSignals (each guarded as in the source). -/
def processResultsState (data : Payload) (now : ℚ) (s : DashState) : DashState :=
  { s with
    analysisResult := some (processResults data now s.agents)
  , blockchainStatus :=
      match data.blockchain with
      | some b => some b
      | none => s.blockchainStatus
  , debateSessions :=
      if (data.orchestrator_summary.bind (fun o => o.debate_sessions)).isSome
          || data.debate_sessions.isSome then
        orList (data.orchestrator_summary.bind (fun o => o.debate_sessions))
          (orList data.debate_sessions [])
      else s.debateSessions
  , greenwashingSignals :=
      if (data.orchestrator_summary.bind (fun o => o.greenwashing_signals)).isSome
          || data.greenwashing_signals.isSome then
        orList (data.orchestrator_summary.bind (fun o => o.greenwashing_signals))
          (orList data.greenwashing_signals [])
      else s.greenwashingSignals }

/-! ### fetchFinalResults (src/unnamed/part_001, lines 189-207) -/

/-- The status object returned by GET analyze/{id} (fields the dashboard
reads).  Absent optional fields model missing JSON keys. -/
structure StatusResp where
  status : String
  results : Option Payload
  error : Option String
  completed_agents : Option (List String)
  pending_agents : Option (List String)
deriving DecidableEq, Repr

/-- The two backend responses fetchFinalResults can observe: the results
request and the fallback status request.  none models a thrown request. -/
structure FetchEnv where
  resultsResp : Option Payload
  statusResp : Option StatusResp
deriving DecidableEq, Repr

/-- A fetch environment in which both requests fail. -/
def emptyFetchEnv : FetchEnv := { resultsResp := none, statusResp := none }

/-- fetchFinalResults: try the results endpoint, fall back to the status
endpoint, and set the error message only when both requests throw. -/
def fetchFinalResults (env : FetchEnv) (now : ℚ) (s : DashState) : DashState :=
  match env.resultsResp with
  | some results => { processResultsState results now s with isAnalyzing := false }
  | none =>
    match env.statusResp with
    | some status =>
      match status.results with
      | some r => { processResultsState r now s with isAnalyzing := false }
      | none => { s with isAnalyzing := false }
    | none =>
      { s with error := some "Failed to fetch analysis results"
             , isAnalyzing := false }

/-! ### handleWebSocketMessage (src/unnamed/part_001, lines 114-186) -/

/-- A websocket message, restricted to the fields the handler reads. -/
structure WSMessage where
  type : String
  status : Option String
  message : Option String
  agent_id : Option String
  task : Option String
  findings : Option (List String)
  round : Option Nat
  data : Option Payload
deriving DecidableEq, Repr

/-- Text interpolation of a possibly-absent round number, as in the JS
template string for the orchestrator task. -/
def roundText : Option Nat → String
  | some r => toString r
  | none => "undefined"

/-- handleWebSocketMessage: the switch over message.type.  A result message
without a data payload throws inside processResults; the throw is caught by
the ws.onmessage try/catch in api.ts, so the state is left unchanged. -/
def handleWebSocketMessage (env : FetchEnv) (now : ℚ) (message : WSMessage)
    (s : DashState) : DashState :=
  if message.type = "connected" then s
  else if message.type = "status" then
    if message.status = some "completed" then
      match s.analysisId with
      | some _ => fetchFinalResults env now s
      | none => s
    else if message.status = some "failed" then
      { s with error := some (orStr message.message "Analysis failed")
             , isAnalyzing := false }
    else s
  else if message.type = "progress" then s
  else if message.type = "agent_start" then
    { s with agents := s.agents.map (fun agent =>
        if message.agent_id = some agent.id then
          { agent with status := "working"
                     , currentTask := some (orStr message.task "Analyzing...")
                     , progress := 0 }
        else agent) }
  else if message.type = "agent_complete" then
    { s with agents := s.agents.map (fun agent =>
        if message.agent_id = some agent.id then
          { agent with status := "completed"
                     , progress := 100
                     , findings := some (orList message.findings []) }
        else agent) }
  else if message.type = "debate_update" then
    { s with isDebating := true
           , currentDebateRound := orNat message.round 0
           , agents := s.agents.map (fun agent =>
               if agent.id = "orchestrator" then
                 { agent with status := "debating"
                            , currentTask :=
                                some ("Debate Round " ++ roundText message.round) }
               else agent) }
  else if message.type = "debate_complete" then
    { s with isDebating := false }
  else if message.type = "result" then
    match message.data with
    | some d => { processResultsState d now s with isAnalyzing := false }
    | none => s
  else if message.type = "error" then
    { s with error := some (orStr message.message "An error occurred")
           , isAnalyzing := false }
  else s

/-- The case labels of the switch in handleWebSocketMessage, in source
order. -/
def handledMessageTypes : List String :=
  [ "connected"
  , "status"
  , "progress"
  , "agent_start"
  , "agent_complete"
  , "debate_update"
  , "debate_complete"
  , "result"
  , "error" ]

/-! ### pollAnalysisStatus (src/unnamed/part_001, lines 386-442) -/

/-- maxAttempts in pollAnalysisStatus. -/
def maxAttempts : Nat := 120

/-- The environment of the polling loop: the response to the i-th status
request (none models a thrown request), plus the fetch environment used
when a completed status carries no results. -/
structure PollEnv where
  respond : Nat → Option StatusResp
  fetchEnv : FetchEnv

/-- The agent-progress update the poll performs from a status object. -/
def updateAgentsFromStatus (status : StatusResp) (agents : List AgentStatus) :
    List AgentStatus :=
  match status.completed_agents with
  | some completed =>
    agents.map (fun agent =>
      { agent with
        status :=
          if completed.contains agent.id then "completed"
          else if (match status.pending_agents with
                   | some p => p.contains agent.id
                   | none => false) then "working"
          else agent.status
      , progress := if completed.contains agent.id then 100 else agent.progress })
  | none => agents

/-- One poll step and its recursion, with an explicit fuel so the loop is
structurally recursive.  The attempts-limit guard comes first, exactly as in
the source; the returned number counts the status requests the loop issued.
A fuel of maxAttempts + 1 or more makes the fuel-exhaustion branch
unreachable. -/
def pollAux (env : PollEnv) (now : ℚ) :
    Nat → Nat → DashState → DashState × Nat
  | 0, attempts, s =>
    if attempts ≥ maxAttempts then
      ({ s with error := some "Analysis timed out", isAnalyzing := false }, 0)
    else (s, 0)
  | fuel + 1, attempts, s =>
    if attempts ≥ maxAttempts then
      ({ s with error := some "Analysis timed out", isAnalyzing := false }, 0)
    else
      match env.respond attempts with
      | none =>
        let r := pollAux env now fuel (attempts + 1) s
        (r.1, r.2 + 1)
      | some status =>
        let s := { s with agents := updateAgentsFromStatus status s.agents }
        if status.status = "completed" then
          match status.results with
          | some results =>
            ({ processResultsState results now s with isAnalyzing := false }, 1)
          | none =>
            ({ fetchFinalResults env.fetchEnv now s with isAnalyzing := false }, 1)
        else if status.status = "failed" then
          ({ s with error := some (orStr status.error "Analysis failed")
                  , isAnalyzing := false }, 1)
        else
          let r := pollAux env now fuel (attempts + 1) s
          (r.1, r.2 + 1)

/-- pollAnalysisStatus: the polling loop started at attempt 0.  The fuel
maxAttempts + 1 covers every reachable iteration. -/
def pollAnalysisStatus (env : PollEnv) (now : ℚ) (s : DashState) :
    DashState × Nat :=
  pollAux env now (maxAttempts + 1) 0 s

/-- A poll response that is neither a completed nor a failed status (a
thrown request also continues the loop). -/
def notTerminalResponse (r : Option StatusResp) : Bool :=
  match r with
  | none => true
  | some st => !(st.status = "completed" : Bool) && !(st.status = "failed" : Bool)

/-- A polling environment in which every request throws and the fallback
fetches also fail. -/
def pollEnvAllErrors : PollEnv :=
  { respond := fun _ => none, fetchEnv := emptyFetchEnv }

/-- A dashboard state is resolved when it carries a non-null analysis
result or a non-null error message. -/
def resolved (s : DashState) : Bool :=
  s.analysisResult.isSome || s.error.isSome

/-- The fetch environment under which fetchFinalResults silently resolves
nothing: the results request throws and the fallback status succeeds but
carries no results. -/
def badFetch (env : FetchEnv) : Bool :=
  env.resultsResp.isNone &&
    (match env.statusResp with
     | some st => st.results.isNone
     | none => false)

/-! ### Confidence revision under a challenge

Modelled from the spec (§4.4): the Confidence Calculator's counter-evidence
revision.  The implementation lives in the Python backend
(challenge_finding / calculate_confidence), which is not under src/ — only
its documentation is — so the revision step is modelled from the spec's
words: new confidence = old_confidence × (1 − counter_weight), where
counter_weight is the counter-evidence's normalized reliability times a
challenge-source-independence bonus, and a challenge from a different
domain than the finding carries more weight than same-domain
disagreement.  The spec fixes only the ordering of the two bonus values,
not their magnitudes; the constants below realise that ordering. -/

/-- Modelled from the spec: a finding as seen by the revision step — its
domain (category) and its current confidence. -/
structure Finding where
  category : String
  confidence : ℚ
deriving DecidableEq, Repr

/-- Modelled from the spec: a challenge as seen by the revision step — the
challenger's domain and the counter-evidence's reliability. -/
structure Challenge where
  challengerCategory : String
  counterReliability : ℚ
deriving DecidableEq, Repr

/-- Modelled from the spec: independence bonus for a same-domain challenge. -/
def sameDomainFactor : ℚ := 1/2

/-- Modelled from the spec: independence bonus for a cross-domain challenge
(strictly larger than the same-domain bonus, as the spec requires). -/
def crossDomainFactor : ℚ := 1

/-- Modelled from the spec: the challenge-source-independence bonus. -/
def independenceBonus (findingCategory challengerCategory : String) : ℚ :=
  if findingCategory = challengerCategory then sameDomainFactor
  else crossDomainFactor

/-- Modelled from the spec: reliability normalized into [0,1]. -/
def normalizedReliability (r : ℚ) : ℚ := max 0 (min 1 r)

/-- Modelled from the spec: the counter-weight of a challenge against a
finding. -/
def counterWeight (f : Finding) (c : Challenge) : ℚ :=
  normalizedReliability c.counterReliability *
    independenceBonus f.category c.challengerCategory

/-- Modelled from the spec: applying a challenge rescales the finding's
confidence by 1 − counter_weight. -/
def applyChallenge (f : Finding) (c : Challenge) : Finding :=
  { f with confidence := f.confidence * (1 - counterWeight f c) }

/-! ### Concrete fixtures for witnesses and counterexamples -/

/-- A status message reporting completion, with no other fields. -/
def statusCompletedMsg : WSMessage :=
  { type := "status", status := some "completed", message := none
  , agent_id := none, task := none, findings := none, round := none
  , data := none }

/-- An agent_start message addressed to the sentinel agent. -/
def agentStartMsg : WSMessage :=
  { type := "agent_start", status := none, message := none
  , agent_id := some "sentinel", task := some "Scanning satellite data"
  , findings := none, round := none, data := none }

/-- A message of a type outside the handler's switch. -/
def unknownTypeMsg : WSMessage :=
  { type := "worker_completed", status := none, message := none
  , agent_id := none, task := none, findings := none, round := none
  , data := none }

/-- The idle sentinel agent as initialised by handleAnalyze. -/
def sentinelAgent : AgentStatus :=
  { id := "sentinel", name := "Sentinel", role := "Environmental Monitoring"
  , status := "idle", progress := 0, currentTask := none, findings := none
  , avatar := "S" }

/-- The initial dashboard state with the sentinel agent registered. -/
def dashStateWithSentinel : DashState :=
  { initialDashState with agents := [sentinelAgent] }

/-- A payload carrying a completed_at timestamp. -/
def timestampedPayload : Payload :=
  { emptyPayload with completed_at := some 5 }

/-- A payload whose only confidence information is a reported value of 0. -/
def zeroConfidencePayload : Payload :=
  { emptyPayload with confidence := some 0 }

/-- A payload carrying an sdg_impact score map and no top_sdgs list. -/
def sdgMapPayload : Payload :=
  { emptyPayload with sdg_impact := some [(13, 80), (1, 10)] }

/-- An environmental finding at confidence 0.9. -/
def envFinding : Finding := { category := "environmental", confidence := 9/10 }

/-- A challenge from the social domain with counter-reliability 0.8. -/
def crossChallenge : Challenge :=
  { challengerCategory := "social", counterReliability := 8/10 }

/-- A challenge from the environmental domain itself, same reliability. -/
def sameChallenge : Challenge :=
  { challengerCategory := "environmental", counterReliability := 8/10 }

/-! ## Theorems -/

/-- C1 (counterexample): the claim asserts a five-band risk taxonomy with a
threshold at 20 (critical below 20, high in 20–40), so scores 19 and 21
would have to carry different labels; in the code both labelling functions
give them the same label, and the label at 10 is "Poor", not "critical". -/
theorem scoreLabel_no_band_at_twenty :
    getScoreLabel 19 = getScoreLabel 21 ∧
    (getOverallRating 19 19 19).label = (getOverallRating 21 21 21).label ∧
    getScoreLabel 10 = "Poor" := by
  refine ⟨?_, ?_, ?_⟩ <;> norm_num [getScoreLabel, getOverallRating]

/-- C1 (amended): both labelling functions use the four fixed bands
Poor below 40, Fair in [40,60), Good in [60,80) and Excellent at 80 and
above; getScoreLabel applies them to the score directly, and
getOverallRating labels the plain average of the three sub-scores with
exactly the same bands. -/
theorem scoreLabel_bands (s e soc g : ℚ) :
    (s < 40 → getScoreLabel s = "Poor") ∧
    (40 ≤ s → s < 60 → getScoreLabel s = "Fair") ∧
    (60 ≤ s → s < 80 → getScoreLabel s = "Good") ∧
    (80 ≤ s → getScoreLabel s = "Excellent") ∧
    (getOverallRating e soc g).label = getScoreLabel (esgOverallAvg e soc g) := by
  simp only [getScoreLabel, getOverallRating, esgOverallAvg]
  refine ⟨?_, ?_, ?_, ?_, ?_⟩ <;> intros <;> split_ifs <;>
    first
    | rfl
    | (exfalso; linarith)

/-- C1 (witness): the amended band theorem evaluated at 10, 45, 70 and 95,
and the label agreement at the concrete sub-scores 10, 20, 30. -/
theorem scoreLabel_bands_witness :
    getScoreLabel 10 = "Poor" ∧ getScoreLabel 45 = "Fair" ∧
    getScoreLabel 70 = "Good" ∧ getScoreLabel 95 = "Excellent" ∧
    (getOverallRating 10 20 30).label = getScoreLabel (esgOverallAvg 10 20 30) :=
  ⟨(scoreLabel_bands 10 0 0 0).1 (by norm_num),
   (scoreLabel_bands 45 0 0 0).2.1 (by norm_num) (by norm_num),
   (scoreLabel_bands 70 0 0 0).2.2.1 (by norm_num) (by norm_num),
   (scoreLabel_bands 95 0 0 0).2.2.2.1 (by norm_num),
   (scoreLabel_bands 0 10 20 30).2.2.2.2⟩

/-- C2 (counterexample): at sub-scores (0, 0, 100) the program's overall
average is 100/3, while the claimed 0.33/0.33/0.34 weighting gives 34, so
the overall score is not that weighted mean. -/
theorem overall_not_spec_weighted :
    esgOverallAvg 0 0 100 = 100/3 ∧ specWeightedOverall 0 0 100 = 34 ∧
    esgOverallAvg 0 0 100 ≠ specWeightedOverall 0 0 100 := by
  refine ⟨by norm_num [esgOverallAvg], by norm_num [specWeightedOverall], ?_⟩
  norm_num [esgOverallAvg, specWeightedOverall]

/-- C2 (amended): the overall value ESGRadarChart computes from the three
sub-scores is their unweighted mean — the even 1/3-each weighting, not the
0.33/0.33/0.34 table. -/
theorem overall_is_even_mean (e s g : ℚ) :
    esgOverallAvg e s g = (1/3) * e + (1/3) * s + (1/3) * g := by
  unfold esgOverallAvg; ring

/-- C7 (counterexample): the API client exposes no cancellation operation,
and its boundary does not consist of exactly four operations. -/
theorem api_has_no_cancel :
    "cancel" ∉ analysisAPIOperations ∧ analysisAPIOperations.length ≠ 4 := by
  decide

/-- C7 (amended): the AnalysisAPI client exposes seven operations — run
invocation (startAnalysis), result retrieval (getAnalysisStatus,
getAnalysisResults), progress subscription (connectWebSocket) and three
blockchain queries — and no cancellation operation. -/
theorem api_boundary_operations :
    analysisAPIOperations.length = 7 ∧
    "startAnalysis" ∈ analysisAPIOperations ∧
    "getAnalysisStatus" ∈ analysisAPIOperations ∧
    "getAnalysisResults" ∈ analysisAPIOperations ∧
    "connectWebSocket" ∈ analysisAPIOperations ∧
    "getBlockchainStatus" ∈ analysisAPIOperations ∧
    "getAuditTrail" ∈ analysisAPIOperations ∧
    "verifyBlockchain" ∈ analysisAPIOperations ∧
    "cancel" ∉ analysisAPIOperations := by
  decide

/-- processResults always stores a (non-null) analysis result. -/
theorem processResultsState_sets_result (data : Payload) (now : ℚ) (s : DashState) :
    (processResultsState data now s).analysisResult.isSome = true := by
  simp [processResultsState]

/-- Setting isAnalyzing does not affect resolvedness. -/
theorem resolved_set_isAnalyzing (s : DashState) (b : Bool) :
    resolved { s with isAnalyzing := b } = resolved s :=
  rfl

/-- Unless both its requests fail in the badFetch pattern, fetchFinalResults
leaves the state resolved. -/
theorem fetch_resolves (env : FetchEnv) (now : ℚ) (s : DashState) :
    badFetch env = false → resolved (fetchFinalResults env now s) = true := by
  intro h
  unfold fetchFinalResults
  cases hr : env.resultsResp with
  | some p => simp [resolved, processResultsState]
  | none =>
    cases hs : env.statusResp with
    | none => simp [resolved]
    | some st =>
      cases hres : st.results with
      | some r => simp [hres, resolved, processResultsState]
      | none =>
        exfalso
        unfold badFetch at h
        rw [hr, hs] at h
        simp [hres] at h

/-- Every non-timeout poll iteration count is bounded and a run of
non-terminal responses drives the loop to the timeout state. -/
theorem pollAux_resolves (env : PollEnv) (now : ℚ) :
    ∀ fuel attempts s, maxAttempts < attempts + fuel →
      badFetch env.fetchEnv = false →
      resolved (pollAux env now fuel attempts s).1 = true := by
  intro fuel
  induction fuel with
  | zero =>
    intro attempts s hlt hb
    have hge : attempts ≥ maxAttempts := by omega
    simp [pollAux, hge, resolved]
  | succ fuel ih =>
    intro attempts s hlt hb
    by_cases hga : attempts ≥ maxAttempts
    · simp [pollAux, hga, resolved]
    · cases hr : env.respond attempts with
      | none =>
        simpa [pollAux, hga, hr] using ih (attempts + 1) s (by omega) hb
      | some status =>
        by_cases hc : status.status = "completed"
        · cases hres : status.results with
          | some results =>
            simp [pollAux, hga, hr, hc, hres, resolved, processResultsState]
          | none =>
            have h2 := fetch_resolves env.fetchEnv now
              { s with agents := updateAgentsFromStatus status s.agents } hb
            simpa [pollAux, hga, hr, hc, hres, resolved] using h2
        · by_cases hf : status.status = "failed"
          · simp [pollAux, hga, hr, hc, hf, resolved]
          · simpa [pollAux, hga, hr, hc, hf] using
              ih (attempts + 1) _ (by omega) hb

/-- C3 (counterexample): a 'completed' status message arriving while no
analysis id is known leaves the state completely unchanged, so a run can
end with neither an analysis result nor an error message — the claimed
result-or-error guarantee fails on this terminal path. -/
theorem completed_without_id_resolves_nothing :
    handleWebSocketMessage emptyFetchEnv 0 statusCompletedMsg initialDashState
      = initialDashState ∧
    initialDashState.analysisResult = none ∧ initialDashState.error = none := by
  decide

/-- C3 (amended): every terminal outcome stores a non-null result or sets a
non-null error — with two exceptions forced by the code: a 'completed'
status message arriving while no analysis id is known, and a completed
outcome whose results fetch throws while the fallback status fetch succeeds
but carries no results (the badFetch pattern).  Outside those, the failed
and error messages, a result message carrying a payload, a completed
message with a known id, and every terminal path of the polling loop all
resolve the state. -/
theorem terminal_outcomes_resolved (env : FetchEnv) (penv : PollEnv) (now : ℚ)
    (msg : WSMessage) (s : DashState) :
    (msg.type = "status" → msg.status = some "failed" →
      resolved (handleWebSocketMessage env now msg s) = true) ∧
    (msg.type = "error" →
      resolved (handleWebSocketMessage env now msg s) = true) ∧
    (msg.type = "result" → msg.data.isSome = true →
      resolved (handleWebSocketMessage env now msg s) = true) ∧
    (msg.type = "status" → msg.status = some "completed" →
      s.analysisId.isSome = true → badFetch env = false →
      resolved (handleWebSocketMessage env now msg s) = true) ∧
    (badFetch penv.fetchEnv = false →
      resolved (pollAnalysisStatus penv now s).1 = true) := by
  refine ⟨?_, ?_, ?_, ?_, ?_⟩
  · intro h1 h2
    simp [handleWebSocketMessage, h1, h2, resolved]
  · intro h1
    simp [handleWebSocketMessage, h1, resolved]
  · intro h1 h2
    obtain ⟨d, hd⟩ := Option.isSome_iff_exists.mp h2
    simp [handleWebSocketMessage, h1, hd, resolved, processResultsState]
  · intro h1 h2 h3 hb
    obtain ⟨id, hid⟩ := Option.isSome_iff_exists.mp h3
    have h4 := fetch_resolves env now s hb
    simpa [handleWebSocketMessage, h1, h2, hid] using h4
  · intro hb
    exact pollAux_resolves penv now (maxAttempts + 1) 0 s (by omega) hb

/-- C3 (witness): the amended theorem's polling conjunct at the concrete
all-errors environment: the loop ends in the timed-out (error-carrying)
state. -/
theorem terminal_outcomes_resolved_witness :
    resolved (pollAnalysisStatus pollEnvAllErrors 0 initialDashState).1 = true :=
  (terminal_outcomes_resolved emptyFetchEnv pollEnvAllErrors 0
    statusCompletedMsg initialDashState).2.2.2.2 rfl

/-- C4 (counterexample): agent_start is a message type the handler
recognizes and genuinely dispatches on (it changes the state), yet it is
not one of the spec's seven progress-event names — the handler's taxonomy
is not the claimed one. -/
theorem handler_recognizes_agent_start :
    "agent_start" ∈ handledMessageTypes ∧
    "agent_start" ∉ specProgressEventTypes ∧
    handleWebSocketMessage emptyFetchEnv 0 agentStartMsg dashStateWithSentinel
      ≠ dashStateWithSentinel := by
  decide

/-- C4 (amended): the message types the progress consumer dispatches on are
connected, status, progress, agent_start, agent_complete, debate_update,
debate_complete, result and error; none of the spec's seven event names is
among them, and a message of any type outside this list leaves the state
unchanged. -/
theorem handler_dispatch_taxonomy (env : FetchEnv) (now : ℚ) (msg : WSMessage)
    (s : DashState) :
    (∀ t ∈ specProgressEventTypes, t ∉ handledMessageTypes) ∧
    (msg.type ∉ handledMessageTypes → handleWebSocketMessage env now msg s = s) := by
  constructor
  · decide
  · intro h
    simp only [handledMessageTypes, List.mem_cons, List.not_mem_nil, or_false,
      not_or] at h
    obtain ⟨h1, h2, h3, h4, h5, h6, h7, h8, h9⟩ := h
    simp [handleWebSocketMessage, h1, h2, h3, h4, h5, h6, h7, h8, h9]

/-- C4 (witness): a message typed with the spec's worker_completed event
name falls outside the handler's switch and leaves the state unchanged. -/
theorem handler_dispatch_taxonomy_witness :
    handleWebSocketMessage emptyFetchEnv 0 unknownTypeMsg initialDashState
      = initialDashState :=
  (handler_dispatch_taxonomy emptyFetchEnv 0 unknownTypeMsg initialDashState).2
    (by decide)

/-- The polling loop issues at most maxAttempts − attempts further status
requests. -/
theorem pollAux_count_le (env : PollEnv) (now : ℚ) :
    ∀ fuel attempts s,
      (pollAux env now fuel attempts s).2 ≤ maxAttempts - attempts := by
  intro fuel
  induction fuel with
  | zero =>
    intro attempts s
    by_cases hga : attempts ≥ maxAttempts <;> simp [pollAux, hga]
  | succ fuel ih =>
    intro attempts s
    by_cases hga : attempts ≥ maxAttempts
    · simp [pollAux, hga]
    · cases hr : env.respond attempts with
      | none =>
        have h2 := ih (attempts + 1) s
        simp [pollAux, hga, hr]
        omega
      | some status =>
        by_cases hc : status.status = "completed"
        · cases hres : status.results with
          | some results => simp [pollAux, hga, hr, hc, hres]; omega
          | none => simp [pollAux, hga, hr, hc, hres]; omega
        · by_cases hf : status.status = "failed"
          · simp [pollAux, hga, hr, hc, hf]; omega
          · have h2 := ih (attempts + 1)
              { s with agents := updateAgentsFromStatus status s.agents }
            simp [pollAux, hga, hr, hc, hf]
            omega

/-- If no response up to the attempts limit is a completed or failed
status, the loop reaches the timeout state: the timed-out error is set,
analysing stops, and exactly maxAttempts − attempts further requests were
issued. -/
theorem pollAux_timeout (env : PollEnv) (now : ℚ) :
    ∀ fuel attempts s, maxAttempts < attempts + fuel →
      (∀ i, attempts ≤ i → i < maxAttempts →
        notTerminalResponse (env.respond i) = true) →
      (pollAux env now fuel attempts s).1.error = some "Analysis timed out" ∧
      (pollAux env now fuel attempts s).1.isAnalyzing = false ∧
      (pollAux env now fuel attempts s).2 = maxAttempts - attempts := by
  intro fuel
  induction fuel with
  | zero =>
    intro attempts s hlt _
    have hge : attempts ≥ maxAttempts := by omega
    simp [pollAux, hge]
  | succ fuel ih =>
    intro attempts s hlt hresp
    by_cases hga : attempts ≥ maxAttempts
    · simp [pollAux, hga]
    · have hnt := hresp attempts le_rfl (by omega)
      cases hr : env.respond attempts with
      | none =>
        have h2 := ih (attempts + 1) s (by omega)
          (fun i h1 h2 => hresp i (by omega) h2)
        simp [pollAux, hga, hr, h2.1, h2.2.1, h2.2.2]
        omega
      | some status =>
        rw [hr] at hnt
        simp only [notTerminalResponse, Bool.and_eq_true, Bool.not_eq_eq_eq_not,
          Bool.not_true, decide_eq_false_iff_not] at hnt
        have h2 := ih (attempts + 1)
          { s with agents := updateAgentsFromStatus status s.agents } (by omega)
          (fun i h1 h2 => hresp i (by omega) h2)
        simp [pollAux, hga, hr, hnt.1, hnt.2, h2.1, h2.2.1, h2.2.2]
        omega

/-- C10 (confirmed): the polling loop always terminates having issued at
most 120 status requests, and when none of the first 120 responses is a
completed or failed status it sets the error 'Analysis timed out', stops
analysing, and issues no further request (the count is exactly 120). -/
theorem pollAnalysisStatus_bounded (env : PollEnv) (now : ℚ) (s : DashState) :
    (pollAnalysisStatus env now s).2 ≤ maxAttempts ∧
    ((∀ i, i < maxAttempts → notTerminalResponse (env.respond i) = true) →
      (pollAnalysisStatus env now s).1.error = some "Analysis timed out" ∧
      (pollAnalysisStatus env now s).1.isAnalyzing = false ∧
      (pollAnalysisStatus env now s).2 = maxAttempts) := by
  constructor
  · have h := pollAux_count_le env now (maxAttempts + 1) 0 s
    simpa [pollAnalysisStatus] using h
  · intro hresp
    have h := pollAux_timeout env now (maxAttempts + 1) 0 s (by omega)
      (fun i _ h2 => hresp i h2)
    simpa [pollAnalysisStatus] using h

/-- C10 (witness): with every request throwing, the loop ends timed out
after exactly 120 requests. -/
theorem pollAnalysisStatus_bounded_witness :
    (pollAnalysisStatus pollEnvAllErrors 0 initialDashState).1.error
      = some "Analysis timed out" ∧
    (pollAnalysisStatus pollEnvAllErrors 0 initialDashState).1.isAnalyzing
      = false ∧
    (pollAnalysisStatus pollEnvAllErrors 0 initialDashState).2 = maxAttempts :=
  (pollAnalysisStatus_bounded pollEnvAllErrors 0 initialDashState).2
    (fun _ _ => rfl)

/-- C5 (confirmed, modelled from the spec): applying a challenge yields
new confidence = old confidence × (1 − counter_weight), where the
counter-weight is the counter-evidence's normalized reliability times the
source-independence bonus; the revision never raises a non-negative
confidence, and for equal reliabilities a cross-domain challenge lowers a
positive confidence strictly more than a same-domain one. -/
theorem challenge_confidence_revision (f : Finding) (c c1 c2 : Challenge) :
    (applyChallenge f c).confidence = f.confidence * (1 - counterWeight f c) ∧
    (0 ≤ f.confidence → (applyChallenge f c).confidence ≤ f.confidence) ∧
    (c1.counterReliability = c2.counterReliability →
      0 < normalizedReliability c1.counterReliability →
      0 < f.confidence →
      c1.challengerCategory ≠ f.category →
      c2.challengerCategory = f.category →
      (applyChallenge f c1).confidence < (applyChallenge f c2).confidence) := by
  have hbonus : ∀ a b : String, 0 ≤ independenceBonus a b := by
    intro a b
    unfold independenceBonus sameDomainFactor crossDomainFactor
    split_ifs <;> norm_num
  have hw : ∀ c : Challenge, 0 ≤ counterWeight f c := by
    intro c
    exact mul_nonneg (le_max_left 0 _) (hbonus _ _)
  refine ⟨rfl, ?_, ?_⟩
  · intro hconf
    have h1 := mul_nonneg hconf (hw c)
    show f.confidence * (1 - counterWeight f c) ≤ f.confidence
    nlinarith
  · intro he hpos hconf h1 h2
    unfold applyChallenge counterWeight independenceBonus
    simp only
    rw [if_neg (fun h => h1 (h.symm)), if_pos h2.symm, he]
    apply mul_lt_mul_of_pos_left ?_ hconf
    rw [he] at hpos
    unfold sameDomainFactor crossDomainFactor
    nlinarith

/-- C5 (witness): against the 0.9-confidence environmental finding, the
0.8-reliability social-domain challenge lowers confidence strictly below
what the identical environmental-domain challenge leaves. -/
theorem challenge_confidence_revision_witness :
    (applyChallenge envFinding crossChallenge).confidence
      < (applyChallenge envFinding sameChallenge).confidence :=
  (challenge_confidence_revision envFinding crossChallenge crossChallenge
      sameChallenge).2.2
    rfl
    (by norm_num [normalizedReliability, crossChallenge])
    (by norm_num [envFinding])
    (by simp [crossChallenge, envFinding])
    rfl

/-- C6 (counterexample): on a payload carrying neither completed_at nor
created_at, processResults falls back to the clock, so two evaluations at
different times yield different displayed results — the mapping is not a
pure function of the payload alone. -/
theorem processResults_depends_on_clock :
    (processResults emptyPayload 0 []).analysisDate = 0 ∧
    (processResults emptyPayload 1 []).analysisDate = 1 ∧
    processResults emptyPayload 0 [] ≠ processResults emptyPayload 1 [] := by
  refine ⟨rfl, rfl, ?_⟩
  intro h
  have h2 := congrArg AnalysisResult.analysisDate h
  simp only [processResults, emptyPayload, orNum] at h2
  norm_num at h2

/-- C6 (amended): processResults is a pure function of the payload, the
current time and the ambient agents state; whenever the payload carries a
truthy completed_at or created_at timestamp its output is independent of
the clock, so replaying the same payload (and agents) reproduces the same
result. -/
theorem processResults_clock_independent (d : Payload) (t1 t2 : ℚ)
    (ag : List AgentStatus) :
    ((∃ x, d.completed_at = some x ∧ x ≠ 0) ∨
     (∃ y, d.created_at = some y ∧ y ≠ 0)) →
    processResults d t1 ag = processResults d t2 ag := by
  intro h
  simp only [processResults, AnalysisResult.mk.injEq, and_true, true_and]
  rcases h with ⟨x, hx, hx0⟩ | ⟨y, hy, hy0⟩
  · simp [orNum, hx, hx0]
  · cases hc : d.completed_at with
    | some x =>
      by_cases hx0 : x = 0
      · simp [orNum, hc, hx0, hy, hy0]
      · simp [orNum, hc, hx0]
    | none => simp [orNum, hc, hy, hy0]

/-- C6 (witness): on a payload with completed_at = 5, evaluations at times
0 and 99 agree. -/
theorem processResults_clock_independent_witness :
    processResults timestampedPayload 0 [] = processResults timestampedPayload 99 [] :=
  processResults_clock_independent timestampedPayload 0 99 []
    (Or.inl ⟨5, rfl, by norm_num⟩)

/-- C8 (confirmed): when the payload's
debate_summary.resolution.final_confidence path and its confidence field
are each absent or 0, the displayed confidence is exactly 0.85 — in
particular a genuinely reported confidence of 0 is replaced by 0.85. -/
theorem processResults_confidence_fallback (d : Payload) (now : ℚ)
    (ag : List AgentStatus) :
    (d.debate_summary.bind (fun ds => ds.resolution.bind
        (fun r => r.final_confidence)) = none ∨
     d.debate_summary.bind (fun ds => ds.resolution.bind
        (fun r => r.final_confidence)) = some 0) →
    (d.confidence = none ∨ d.confidence = some 0) →
    (processResults d now ag).confidence = (0.85 : ℚ) := by
  intro h1 h2
  simp only [processResults]
  rcases h1 with h1 | h1 <;> rcases h2 with h2 | h2 <;> simp [orNum, h1, h2]

/-- C8 (witness): a payload whose only confidence information is a
reported 0 is displayed with confidence 0.85. -/
theorem processResults_confidence_fallback_witness :
    (processResults zeroConfidencePayload 0 []).confidence = (0.85 : ℚ) :=
  processResults_confidence_fallback zeroConfidencePayload 0 []
    (Or.inl rfl) (Or.inr rfl)

/-- Mapping a list pointwise satisfies any pointwise relation. -/
theorem forall2_map_self {α β : Type} (g : α → β) (P : α → β → Prop)
    (h : ∀ a, P a (g a)) : ∀ m : List α, List.Forall₂ P m (m.map g) := by
  intro m
  induction m with
  | nil => exact List.Forall₂.nil
  | cons a t ih => exact List.Forall₂.cons (h a) ih

/-- C9 (confirmed): every SDG entry derived from a payload's sdg_impact
score map is classified 'positive' exactly when its score exceeds 50 and
'neutral' otherwise — never 'negative'. -/
theorem processResults_sdg_classification (d : Payload) (now : ℚ)
    (ag : List AgentStatus) (m : List (Nat × ℚ)) :
    d.top_sdgs = none → d.sdg_impact = some m →
    List.Forall₂ (fun (p : Nat × ℚ) (e : SDGImpactEntry) =>
        e.impact = (if p.2 > 50 then "positive" else "neutral") ∧
        e.impact ≠ "negative")
      m (processResults d now ag).sdgImpacts := by
  intro ht hs
  simp only [processResults, ht, hs]
  simp only [Option.isSome_some, Option.isSome_none, Bool.true_or, Bool.or_true,
    if_true, orList, Option.getD_none, Option.getD_some, List.map_map]
  apply forall2_map_self
  intro p
  constructor
  · by_cases hp : p.2 > 50 <;>
      simp [Function.comp, toSdgImpactEntry, sdgEntryOfPair, orStr, hp]
  · by_cases hp : p.2 > 50 <;>
      simp [Function.comp, toSdgImpactEntry, sdgEntryOfPair, orStr, hp]

/-- C9 (witness): from the score map {13: 80, 1: 10} the derived entries
are classified positive (80 > 50) and neutral (10 ≤ 50), neither
negative. -/
theorem processResults_sdg_classification_witness :
    List.Forall₂ (fun (p : Nat × ℚ) (e : SDGImpactEntry) =>
        e.impact = (if p.2 > 50 then "positive" else "neutral") ∧
        e.impact ≠ "negative")
      [(13, 80), (1, 10)] (processResults sdgMapPayload 0 []).sdgImpacts :=
  processResults_sdg_classification sdgMapPayload 0 [] [(13, 80), (1, 10)]
    rfl rfl

end Gaia
